import Mathlib

/-!
Verification of the CipherNotes repository: a shallow embedding of

* the client-side key chunk codec of `src/components/CipherNotes.jsx`
  (`keyChunkToBigInt`, `bigIntToKeyChunk`, and the split/join call sites at
  offsets 0, 8, 16, 24), where JavaScript `BigInt` values are modelled as
  `Nat` and `Uint8Array` contents as `List Nat` with entries below 256;
* the decrypt-pipeline guard of `handleDecrypt` (all-falsy oracle response);
* the `CipherNotes.sol` contract: its storage as a record of total maps,
  `msg.sender` and `block.timestamp` as explicit parameters, `require`
  failures as `Except.error` carrying the revert string, and FHE handles
  (`euint64` / `bytes32`) as opaque `Nat` values chosen by the environment
  (the `FHE.allow` / `FHE.allowThis` ACL calls live outside contract
  storage and are not modelled).
-/

namespace CipherNotes

/-! ### Key chunk codec (CipherNotes.jsx lines 66-81)

JavaScript source:

```
const keyChunkToBigInt = (keyBytes, offset = 0) => {
  let value = 0n;
  for (let i = 0; i < 8; i++) {
    value = (value << 8n) | BigInt(keyBytes[offset + i] || 0);
  }
  return value;
};

const bigIntToKeyChunk = (value) => {
  const bytes = new Uint8Array(8);
  for (let i = 7; i >= 0; i--) {
    bytes[i] = Number(value & 0xFFn);
    value = value >> 8n;
  }
  return bytes;
};
```

Both fixed-count loops are unrolled below.  `keyBytes[offset + i] || 0`
is `List.getD` (out-of-range access yields `undefined`, coerced to 0);
after the loop, `bytes[i] = (value >> 8*(7-i)) & 0xFF`.
-/

def keyChunkToBigInt (keyBytes : List Nat) (offset : Nat) : Nat :=
  ((((((((0 <<< 8 ||| keyBytes.getD offset 0)
      <<< 8 ||| keyBytes.getD (offset + 1) 0)
      <<< 8 ||| keyBytes.getD (offset + 2) 0)
      <<< 8 ||| keyBytes.getD (offset + 3) 0)
      <<< 8 ||| keyBytes.getD (offset + 4) 0)
      <<< 8 ||| keyBytes.getD (offset + 5) 0)
      <<< 8 ||| keyBytes.getD (offset + 6) 0)
      <<< 8 ||| keyBytes.getD (offset + 7) 0)

def bigIntToKeyChunk (value : Nat) : List Nat :=
  [value >>> 56 &&& 255, value >>> 48 &&& 255,
   value >>> 40 &&& 255, value >>> 32 &&& 255,
   value >>> 24 &&& 255, value >>> 16 &&& 255,
   value >>> 8 &&& 255, value &&& 255]

/-- Call site `handleSave` lines 633-636: the 32-byte key is split by
reading 64-bit big-endian chunks at offsets 0, 8, 16, 24. -/
def splitKey (keyBytes : List Nat) : Nat × Nat × Nat × Nat :=
  (keyChunkToBigInt keyBytes 0, keyChunkToBigInt keyBytes 8,
   keyChunkToBigInt keyBytes 16, keyChunkToBigInt keyBytes 24)

/-- Call site `handleDecrypt` lines 791-799: `keyBytes.set(chunk_i, 8*(i-1))`
on a fresh 32-byte array, i.e. the concatenation of the four 8-byte chunks. -/
def joinKey (c1 c2 c3 c4 : Nat) : List Nat :=
  bigIntToKeyChunk c1 ++ bigIntToKeyChunk c2 ++ bigIntToKeyChunk c3 ++ bigIntToKeyChunk c4

/-! ### Arithmetic bridge lemmas for the bitwise operations -/

lemma byte_and_lt (x : Nat) : x &&& 255 < 256 :=
  Nat.lt_of_le_of_lt Nat.and_le_right (by norm_num)

lemma and255_eq_mod (x : Nat) : x &&& 255 = x % 256 := by
  have h := Nat.and_pow_two_sub_one_eq_mod x 8
  norm_num at h
  exact h

lemma lor_byte (a b : Nat) (hb : b < 256) : (a <<< 8) ||| b = a * 256 + b := by
  have e : (2 : Nat) ^ 8 = 256 := by norm_num
  have h := Nat.mul_add_lt_is_or (b := b) (i := 8) (by simpa [e] using hb) a
  rw [Nat.shiftLeft_eq, e, Nat.mul_comm a 256]
  rw [e] at h
  omega

/-- Unfolding `keyChunkToBigInt` to plain arithmetic, valid when every byte
read is below 256 (always true for `Uint8Array` contents). -/
lemma keyChunkToBigInt_arith (k : List Nat) (off : Nat)
    (h0 : k.getD off 0 < 256) (h1 : k.getD (off + 1) 0 < 256)
    (h2 : k.getD (off + 2) 0 < 256) (h3 : k.getD (off + 3) 0 < 256)
    (h4 : k.getD (off + 4) 0 < 256) (h5 : k.getD (off + 5) 0 < 256)
    (h6 : k.getD (off + 6) 0 < 256) (h7 : k.getD (off + 7) 0 < 256) :
    keyChunkToBigInt k off =
      (((((((k.getD off 0 * 256 + k.getD (off + 1) 0) * 256 + k.getD (off + 2) 0) * 256
        + k.getD (off + 3) 0) * 256 + k.getD (off + 4) 0) * 256 + k.getD (off + 5) 0) * 256
        + k.getD (off + 6) 0) * 256 + k.getD (off + 7) 0) := by
  unfold keyChunkToBigInt
  rw [lor_byte _ _ h7, lor_byte _ _ h6, lor_byte _ _ h5, lor_byte _ _ h4,
      lor_byte _ _ h3, lor_byte _ _ h2, lor_byte _ _ h1, lor_byte _ _ h0]
  omega

/-- Reassembling the eight big-endian bytes of a value below `2^64`
recovers the value. -/
lemma chunk_bytes_val (v : Nat) (hv : v < 2 ^ 64) :
    (((((((v >>> 56 &&& 255) * 256 + (v >>> 48 &&& 255)) * 256 + (v >>> 40 &&& 255)) * 256
      + (v >>> 32 &&& 255)) * 256 + (v >>> 24 &&& 255)) * 256 + (v >>> 16 &&& 255)) * 256
      + (v >>> 8 &&& 255)) * 256 + (v &&& 255) = v := by
  simp only [and255_eq_mod, Nat.shiftRight_eq_div_pow]
  norm_num at hv ⊢
  omega

/-- Splitting a value below `2^64` into its eight big-endian bytes and
re-reading them as one big-endian number recovers the value. -/
lemma split_bytes_val (b0 b1 b2 b3 b4 b5 b6 b7 : Nat)
    (h0 : b0 < 256) (h1 : b1 < 256) (h2 : b2 < 256) (h3 : b3 < 256)
    (h4 : b4 < 256) (h5 : b5 < 256) (h6 : b6 < 256) (h7 : b7 < 256) :
    bigIntToKeyChunk
      ((((((((b0 * 256 + b1) * 256 + b2) * 256 + b3) * 256 + b4) * 256 + b5) * 256
        + b6) * 256 + b7)) = [b0, b1, b2, b3, b4, b5, b6, b7] := by
  unfold bigIntToKeyChunk
  simp only [and255_eq_mod, Nat.shiftRight_eq_div_pow, List.cons.injEq, and_true]
  norm_num
  refine ⟨?_, ?_, ?_, ?_, ?_, ?_, ?_, ?_⟩ <;> omega

/-- Reading a chunk of a cons cell at a positive offset skips the head. -/
lemma keyChunkToBigInt_cons_succ (a : Nat) (l : List Nat) (off : Nat) :
    keyChunkToBigInt (a :: l) (off + 1) = keyChunkToBigInt l off := by
  unfold keyChunkToBigInt
  simp only [Nat.add_right_comm off 1, List.getD_cons_succ]

/-- Evaluating `keyChunkToBigInt` at offset 0 on a list with at least eight
explicit leading elements, each a byte. -/
lemma keyChunkToBigInt_cons8 (b0 b1 b2 b3 b4 b5 b6 b7 : Nat) (rest : List Nat)
    (h0 : b0 < 256) (h1 : b1 < 256) (h2 : b2 < 256) (h3 : b3 < 256)
    (h4 : b4 < 256) (h5 : b5 < 256) (h6 : b6 < 256) (h7 : b7 < 256) :
    keyChunkToBigInt (b0 :: b1 :: b2 :: b3 :: b4 :: b5 :: b6 :: b7 :: rest) 0 =
      ((((((b0 * 256 + b1) * 256 + b2) * 256 + b3) * 256 + b4) * 256 + b5) * 256
        + b6) * 256 + b7 := by
  rw [keyChunkToBigInt_arith] <;>
    simp [h0, h1, h2, h3, h4, h5, h6, h7]

/-- Round trip key → chunks → key on any 32-byte key. -/
lemma join_split (k : List Nat) (hlen : k.length = 32) (hb : ∀ b ∈ k, b < 256) :
    joinKey (keyChunkToBigInt k 0) (keyChunkToBigInt k 8)
      (keyChunkToBigInt k 16) (keyChunkToBigInt k 24) = k := by
  obtain ⟨b0, k, rfl⟩ := k.exists_of_length_succ (n := 31) (by omega)
  obtain ⟨b1, k, rfl⟩ := k.exists_of_length_succ (n := 30) (by simp only [List.length_cons] at hlen; omega)
  obtain ⟨b2, k, rfl⟩ := k.exists_of_length_succ (n := 29) (by simp only [List.length_cons] at hlen; omega)
  obtain ⟨b3, k, rfl⟩ := k.exists_of_length_succ (n := 28) (by simp only [List.length_cons] at hlen; omega)
  obtain ⟨b4, k, rfl⟩ := k.exists_of_length_succ (n := 27) (by simp only [List.length_cons] at hlen; omega)
  obtain ⟨b5, k, rfl⟩ := k.exists_of_length_succ (n := 26) (by simp only [List.length_cons] at hlen; omega)
  obtain ⟨b6, k, rfl⟩ := k.exists_of_length_succ (n := 25) (by simp only [List.length_cons] at hlen; omega)
  obtain ⟨b7, k, rfl⟩ := k.exists_of_length_succ (n := 24) (by simp only [List.length_cons] at hlen; omega)
  obtain ⟨b8, k, rfl⟩ := k.exists_of_length_succ (n := 23) (by simp only [List.length_cons] at hlen; omega)
  obtain ⟨b9, k, rfl⟩ := k.exists_of_length_succ (n := 22) (by simp only [List.length_cons] at hlen; omega)
  obtain ⟨b10, k, rfl⟩ := k.exists_of_length_succ (n := 21) (by simp only [List.length_cons] at hlen; omega)
  obtain ⟨b11, k, rfl⟩ := k.exists_of_length_succ (n := 20) (by simp only [List.length_cons] at hlen; omega)
  obtain ⟨b12, k, rfl⟩ := k.exists_of_length_succ (n := 19) (by simp only [List.length_cons] at hlen; omega)
  obtain ⟨b13, k, rfl⟩ := k.exists_of_length_succ (n := 18) (by simp only [List.length_cons] at hlen; omega)
  obtain ⟨b14, k, rfl⟩ := k.exists_of_length_succ (n := 17) (by simp only [List.length_cons] at hlen; omega)
  obtain ⟨b15, k, rfl⟩ := k.exists_of_length_succ (n := 16) (by simp only [List.length_cons] at hlen; omega)
  obtain ⟨b16, k, rfl⟩ := k.exists_of_length_succ (n := 15) (by simp only [List.length_cons] at hlen; omega)
  obtain ⟨b17, k, rfl⟩ := k.exists_of_length_succ (n := 14) (by simp only [List.length_cons] at hlen; omega)
  obtain ⟨b18, k, rfl⟩ := k.exists_of_length_succ (n := 13) (by simp only [List.length_cons] at hlen; omega)
  obtain ⟨b19, k, rfl⟩ := k.exists_of_length_succ (n := 12) (by simp only [List.length_cons] at hlen; omega)
  obtain ⟨b20, k, rfl⟩ := k.exists_of_length_succ (n := 11) (by simp only [List.length_cons] at hlen; omega)
  obtain ⟨b21, k, rfl⟩ := k.exists_of_length_succ (n := 10) (by simp only [List.length_cons] at hlen; omega)
  obtain ⟨b22, k, rfl⟩ := k.exists_of_length_succ (n := 9) (by simp only [List.length_cons] at hlen; omega)
  obtain ⟨b23, k, rfl⟩ := k.exists_of_length_succ (n := 8) (by simp only [List.length_cons] at hlen; omega)
  obtain ⟨b24, k, rfl⟩ := k.exists_of_length_succ (n := 7) (by simp only [List.length_cons] at hlen; omega)
  obtain ⟨b25, k, rfl⟩ := k.exists_of_length_succ (n := 6) (by simp only [List.length_cons] at hlen; omega)
  obtain ⟨b26, k, rfl⟩ := k.exists_of_length_succ (n := 5) (by simp only [List.length_cons] at hlen; omega)
  obtain ⟨b27, k, rfl⟩ := k.exists_of_length_succ (n := 4) (by simp only [List.length_cons] at hlen; omega)
  obtain ⟨b28, k, rfl⟩ := k.exists_of_length_succ (n := 3) (by simp only [List.length_cons] at hlen; omega)
  obtain ⟨b29, k, rfl⟩ := k.exists_of_length_succ (n := 2) (by simp only [List.length_cons] at hlen; omega)
  obtain ⟨b30, k, rfl⟩ := k.exists_of_length_succ (n := 1) (by simp only [List.length_cons] at hlen; omega)
  obtain ⟨b31, k, rfl⟩ := k.exists_of_length_succ (n := 0) (by simp only [List.length_cons] at hlen; omega)
  obtain rfl : k = [] := by
    simp only [List.length_cons] at hlen
    exact List.eq_nil_of_length_eq_zero (by omega)
  have h0 : b0 < 256 := hb b0 (by simp)
  have h1 : b1 < 256 := hb b1 (by simp)
  have h2 : b2 < 256 := hb b2 (by simp)
  have h3 : b3 < 256 := hb b3 (by simp)
  have h4 : b4 < 256 := hb b4 (by simp)
  have h5 : b5 < 256 := hb b5 (by simp)
  have h6 : b6 < 256 := hb b6 (by simp)
  have h7 : b7 < 256 := hb b7 (by simp)
  have h8 : b8 < 256 := hb b8 (by simp)
  have h9 : b9 < 256 := hb b9 (by simp)
  have h10 : b10 < 256 := hb b10 (by simp)
  have h11 : b11 < 256 := hb b11 (by simp)
  have h12 : b12 < 256 := hb b12 (by simp)
  have h13 : b13 < 256 := hb b13 (by simp)
  have h14 : b14 < 256 := hb b14 (by simp)
  have h15 : b15 < 256 := hb b15 (by simp)
  have h16 : b16 < 256 := hb b16 (by simp)
  have h17 : b17 < 256 := hb b17 (by simp)
  have h18 : b18 < 256 := hb b18 (by simp)
  have h19 : b19 < 256 := hb b19 (by simp)
  have h20 : b20 < 256 := hb b20 (by simp)
  have h21 : b21 < 256 := hb b21 (by simp)
  have h22 : b22 < 256 := hb b22 (by simp)
  have h23 : b23 < 256 := hb b23 (by simp)
  have h24 : b24 < 256 := hb b24 (by simp)
  have h25 : b25 < 256 := hb b25 (by simp)
  have h26 : b26 < 256 := hb b26 (by simp)
  have h27 : b27 < 256 := hb b27 (by simp)
  have h28 : b28 < 256 := hb b28 (by simp)
  have h29 : b29 < 256 := hb b29 (by simp)
  have h30 : b30 < 256 := hb b30 (by simp)
  have h31 : b31 < 256 := hb b31 (by simp)
  simp only [keyChunkToBigInt_cons_succ]
  rw [keyChunkToBigInt_cons8 _ _ _ _ _ _ _ _ _ h0 h1 h2 h3 h4 h5 h6 h7,
      keyChunkToBigInt_cons8 _ _ _ _ _ _ _ _ _ h8 h9 h10 h11 h12 h13 h14 h15,
      keyChunkToBigInt_cons8 _ _ _ _ _ _ _ _ _ h16 h17 h18 h19 h20 h21 h22 h23,
      keyChunkToBigInt_cons8 _ _ _ _ _ _ _ _ _ h24 h25 h26 h27 h28 h29 h30 h31]
  unfold joinKey
  rw [split_bytes_val _ _ _ _ _ _ _ _ h0 h1 h2 h3 h4 h5 h6 h7,
      split_bytes_val _ _ _ _ _ _ _ _ h8 h9 h10 h11 h12 h13 h14 h15,
      split_bytes_val _ _ _ _ _ _ _ _ h16 h17 h18 h19 h20 h21 h22 h23,
      split_bytes_val _ _ _ _ _ _ _ _ h24 h25 h26 h27 h28 h29 h30 h31]
  rfl

/-- Round trip chunks → key → chunks on any four 64-bit values. -/
lemma split_join (c1 c2 c3 c4 : Nat)
    (hc1 : c1 < 2 ^ 64) (hc2 : c2 < 2 ^ 64) (hc3 : c3 < 2 ^ 64) (hc4 : c4 < 2 ^ 64) :
    splitKey (joinKey c1 c2 c3 c4) = (c1, c2, c3, c4) := by
  unfold splitKey joinKey bigIntToKeyChunk
  simp only [List.cons_append, List.nil_append, keyChunkToBigInt_cons_succ]
  rw [keyChunkToBigInt_cons8 _ _ _ _ _ _ _ _ _
        (byte_and_lt _) (byte_and_lt _) (byte_and_lt _) (byte_and_lt _)
        (byte_and_lt _) (byte_and_lt _) (byte_and_lt _) (byte_and_lt _),
      keyChunkToBigInt_cons8 _ _ _ _ _ _ _ _ _
        (byte_and_lt _) (byte_and_lt _) (byte_and_lt _) (byte_and_lt _)
        (byte_and_lt _) (byte_and_lt _) (byte_and_lt _) (byte_and_lt _),
      keyChunkToBigInt_cons8 _ _ _ _ _ _ _ _ _
        (byte_and_lt _) (byte_and_lt _) (byte_and_lt _) (byte_and_lt _)
        (byte_and_lt _) (byte_and_lt _) (byte_and_lt _) (byte_and_lt _),
      keyChunkToBigInt_cons8 _ _ _ _ _ _ _ _ _
        (byte_and_lt _) (byte_and_lt _) (byte_and_lt _) (byte_and_lt _)
        (byte_and_lt _) (byte_and_lt _) (byte_and_lt _) (byte_and_lt _)]
  simp only [Prod.mk.injEq]
  exact ⟨chunk_bytes_val c1 hc1, chunk_bytes_val c2 hc2,
         chunk_bytes_val c3 hc3, chunk_bytes_val c4 hc4⟩

/-! ### Decrypt pipeline guard (CipherNotes.jsx `handleDecrypt`, lines 779-799)

```
const decryptedChunks = await requestDecryption4x64(keyHandles, contractAddress);
if (!decryptedChunks[0] && !decryptedChunks[1] && !decryptedChunks[2] && !decryptedChunks[3]) {
  throw new Error('Gateway returned null values - decryption did not work');
}
const keyBytes = new Uint8Array(32);
const chunk1 = bigIntToKeyChunk(BigInt(decryptedChunks[0] || 0));
...
keyBytes.set(chunk1, 0); ... keyBytes.set(chunk4, 24);
```

Oracle response entries are `Option Nat` (`none` = null/undefined/absent).
The thrown error is caught by the surrounding try/catch, which leaves
`isDecrypted` false and the caches untouched, i.e. the resource stays locked.
-/

/-- JavaScript falsiness of one oracle response entry: `null`/`undefined`
(`none`) and the numeric value 0 are falsy. -/
def jsFalsy : Option Nat → Bool
  | none => true
  | some v => v == 0

/-- The key-reconstruction step of `handleDecrypt`: the all-falsy guard,
then `d || 0` defaulting and big-endian reassembly of the 32-byte key. -/
def reconstructKeyBytes (d1 d2 d3 d4 : Option Nat) : Except String (List Nat) :=
  if jsFalsy d1 && jsFalsy d2 && jsFalsy d3 && jsFalsy d4 then
    .error "Gateway returned null values - decryption did not work"
  else
    .ok (joinKey (d1.getD 0) (d2.getD 0) (d3.getD 0) (d4.getD 0))

/-! ### The CipherNotes contract (contracts/CipherNotes.sol)

Storage is a record of total maps; `msg.sender` and `block.timestamp` are
explicit parameters (`sender`, `now`); a failed `require` is
`Except.error` with the revert string.  Addresses are `Nat` (0 is
`address(0)`); `euint64` ciphertext handles and the `bytes32` values
produced by `FHE.toBytes32` are `Nat` (0 is `bytes32(0)`).  The external
encrypted inputs (`externalEuint64` plus `inputProof`) are modelled by the
handle values `FHE.fromExternal` produces for them, chosen by the caller;
`FHE.allowThis` / `FHE.allow` act on the coprocessor ACL, not on contract
storage, and are omitted.  Checked uint256 arithmetic that can actually
underflow (`noteCount--`) keeps its revert branch; the `noteCount++`
overflow branch is unreachable (the counter is bounded by the note-array
length) and is omitted. -/

abbrev Address := Nat

/-- One `bytes32[4]` entry of `sharedNoteKeys`; the mapping default is all
zeroes, and `delete` resets to it. -/
structure ChunkHandles where
  h0 : Nat
  h1 : Nat
  h2 : Nat
  h3 : Nat
deriving DecidableEq

def ChunkHandles.zero : ChunkHandles := ⟨0, 0, 0, 0⟩

/-- The `Note` struct. -/
structure Note where
  id : Nat
  createdAt : Nat
  updatedAt : Nat
  title : String
  ipfsCid : List Nat
  keyChunk1 : Nat
  keyChunk2 : Nat
  keyChunk3 : Nat
  keyChunk4 : Nat
  isDeleted : Bool
deriving DecidableEq

/-- Default struct value (reads of unset storage). -/
def defaultNote : Note :=
  { id := 0, createdAt := 0, updatedAt := 0, title := "", ipfsCid := [],
    keyChunk1 := 0, keyChunk2 := 0, keyChunk3 := 0, keyChunk4 := 0,
    isDeleted := false }

/-- The `SharedNoteRef` struct. -/
structure SharedNoteRef where
  owner : Address
  noteId : Nat
deriving DecidableEq

/-- The contract's storage (the category mappings are not involved in any
claim and are omitted). -/
structure ContractState where
  userNotes : Address → List Note
  noteCount : Address → Nat
  sharedNoteKeys : Address → Nat → Address → ChunkHandles
  sharedWithList : Address → Nat → List Address
  receivedNotes : Address → List SharedNoteRef

/-- Function `createNote` (lines 84-115): appends a note with
`id = userNotes[msg.sender].length` and the four freshly imported chunk
handles, bumps `noteCount`, returns the id.  No `require`. -/
def createNote (s : ContractState) (sender : Address) (title : String)
    (ipfsCid : List Nat) (k1 k2 k3 k4 : Nat) (now : Nat) : Nat × ContractState :=
  let noteId := (s.userNotes sender).length
  let note : Note :=
    { id := noteId, createdAt := now, updatedAt := now, title := title,
      ipfsCid := ipfsCid, keyChunk1 := k1, keyChunk2 := k2, keyChunk3 := k3,
      keyChunk4 := k4, isDeleted := false }
  (noteId,
    { s with
      userNotes := fun a => if a = sender then s.userNotes sender ++ [note] else s.userNotes a
      noteCount := fun a => if a = sender then s.noteCount sender + 1 else s.noteCount a })

/-- Function `updateTitle` (lines 148-156). -/
def updateTitle (s : ContractState) (sender : Address) (noteId : Nat)
    (newTitle : String) (now : Nat) : Except String ContractState :=
  if noteId < (s.userNotes sender).length then
    let note := (s.userNotes sender).getD noteId defaultNote
    if note.isDeleted then .error "Deleted"
    else .ok { s with
      userNotes := fun a =>
        if a = sender then
          (s.userNotes sender).set noteId { note with title := newTitle, updatedAt := now }
        else s.userNotes a }
  else .error "Not found"

/-- Function `updateContent` (lines 161-183): new CID, new chunk handles,
`updatedAt` bumped. -/
def updateContent (s : ContractState) (sender : Address) (noteId : Nat)
    (ipfsCid : List Nat) (k1 k2 k3 k4 : Nat) (now : Nat) : Except String ContractState :=
  if noteId < (s.userNotes sender).length then
    let note := (s.userNotes sender).getD noteId defaultNote
    if note.isDeleted then .error "Deleted"
    else .ok { s with
      userNotes := fun a =>
        if a = sender then
          (s.userNotes sender).set noteId
            { note with
              ipfsCid := ipfsCid
              updatedAt := now
              keyChunk1 := k1
              keyChunk2 := k2
              keyChunk3 := k3
              keyChunk4 := k4 }
        else s.userNotes a }
  else .error "Not found"

/-- Function `deleteNote` (lines 188-196): soft delete, decrements
`noteCount` (checked uint256 subtraction). -/
def deleteNote (s : ContractState) (sender : Address) (noteId : Nat) :
    Except String ContractState :=
  if noteId < (s.userNotes sender).length then
    let note := (s.userNotes sender).getD noteId defaultNote
    if note.isDeleted then .error "Already deleted"
    else if s.noteCount sender = 0 then .error "panic: arithmetic underflow"
    else .ok { s with
      userNotes := fun a =>
        if a = sender then (s.userNotes sender).set noteId { note with isDeleted := true }
        else s.userNotes a
      noteCount := fun a => if a = sender then s.noteCount sender - 1 else s.noteCount a }
  else .error "Not found"

/-- Function `restoreNote` (lines 201-208). -/
def restoreNote (s : ContractState) (sender : Address) (noteId : Nat) :
    Except String ContractState :=
  if noteId < (s.userNotes sender).length then
    let note := (s.userNotes sender).getD noteId defaultNote
    if note.isDeleted then
      .ok { s with
        userNotes := fun a =>
          if a = sender then (s.userNotes sender).set noteId { note with isDeleted := false }
          else s.userNotes a
        noteCount := fun a => if a = sender then s.noteCount sender + 1 else s.noteCount a }
    else .error "Not deleted"
  else .error "Not found"

/-- Function `shareNote` (lines 216-264): five `require`s in source order,
then stores the four recipient handles and appends to both tracking lists. -/
def shareNote (s : ContractState) (sender : Address) (noteId : Nat)
    (recipient : Address) (k1 k2 k3 k4 : Nat) : Except String ContractState :=
  if ¬ noteId < (s.userNotes sender).length then .error "Not found"
  else if ((s.userNotes sender).getD noteId defaultNote).isDeleted then .error "Deleted"
  else if recipient = sender then .error "Cannot share with self"
  else if recipient = 0 then .error "Invalid recipient"
  else if (s.sharedNoteKeys sender noteId recipient).h0 ≠ 0 then .error "Already shared"
  else .ok { s with
    sharedNoteKeys := fun o n r =>
      if o = sender ∧ n = noteId ∧ r = recipient then ⟨k1, k2, k3, k4⟩
      else s.sharedNoteKeys o n r
    sharedWithList := fun o n =>
      if o = sender ∧ n = noteId then s.sharedWithList sender noteId ++ [recipient]
      else s.sharedWithList o n
    receivedNotes := fun a =>
      if a = recipient then s.receivedNotes recipient ++ [⟨sender, noteId⟩]
      else s.receivedNotes a }

/-- Function `unshareNote` (lines 269-277): `delete sharedNoteKeys[...]`
resets the entry to all-zero; the tracking lists are untouched. -/
def unshareNote (s : ContractState) (sender : Address) (noteId : Nat)
    (recipient : Address) : Except String ContractState :=
  if ¬ noteId < (s.userNotes sender).length then .error "Not found"
  else if (s.sharedNoteKeys sender noteId recipient).h0 = 0 then .error "Not shared"
  else .ok { s with
    sharedNoteKeys := fun o n r =>
      if o = sender ∧ n = noteId ∧ r = recipient then ChunkHandles.zero
      else s.sharedNoteKeys o n r }

/-- Function `getSharedNoteKeyChunks` (lines 282-288); `sender` is the
recipient reading their chunk handles. -/
def getSharedNoteKeyChunks (s : ContractState) (sender owner : Address)
    (noteId : Nat) : Except String ChunkHandles :=
  if (s.sharedNoteKeys owner noteId sender).h0 = 0 then .error "No access"
  else .ok (s.sharedNoteKeys owner noteId sender)

/-- Function `getSharedNoteCID` (lines 293-296); the storage-array access
`userNotes[owner][noteId]` out of bounds is an EVM panic. -/
def getSharedNoteCID (s : ContractState) (sender owner : Address)
    (noteId : Nat) : Except String (List Nat) :=
  if (s.sharedNoteKeys owner noteId sender).h0 = 0 then .error "No access"
  else if noteId < (s.userNotes owner).length then
    .ok ((s.userNotes owner).getD noteId defaultNote).ipfsCid
  else .error "panic: array out of bounds"

/-- Function `getSharedNoteMetadata` (lines 301-309). -/
def getSharedNoteMetadata (s : ContractState) (sender owner : Address)
    (noteId : Nat) : Except String (String × Nat × Nat) :=
  if (s.sharedNoteKeys owner noteId sender).h0 = 0 then .error "No access"
  else if noteId < (s.userNotes owner).length then
    let note := (s.userNotes owner).getD noteId defaultNote
    .ok (note.title, note.createdAt, note.updatedAt)
  else .error "panic: array out of bounds"

/-- Function `getReceivedNotes` (lines 314-334): three parallel arrays over
`receivedNotes[msg.sender]`; a title is filled in only when the grant is
still active, otherwise it stays the default empty string.  Entries with an
active grant always point at an existing note (shareNote bounds-checks and
the note array never shrinks), so the title read cannot go out of bounds in
a reachable state; it is modelled with the default-note fallback. -/
def getReceivedNotes (s : ContractState) (sender : Address) :
    List Address × List Nat × List String :=
  let refs := s.receivedNotes sender
  (refs.map (fun rf => rf.owner),
   refs.map (fun rf => rf.noteId),
   refs.map (fun rf =>
     if (s.sharedNoteKeys rf.owner rf.noteId sender).h0 ≠ 0 then
       ((s.userNotes rf.owner).getD rf.noteId defaultNote).title
     else ""))

/-- Function `getSharedWithList` (lines 339-342). -/
def getSharedWithList (s : ContractState) (sender : Address) (noteId : Nat) :
    Except String (List Address) :=
  if noteId < (s.userNotes sender).length then .ok (s.sharedWithList sender noteId)
  else .error "Not found"

/-- Client function `loadSharedNotes` (CipherNotes.jsx lines 490-513):
fetches `getReceivedNotes` and keeps entry `i` only when `titles[i]` is
truthy (a non-empty string), building `{owner, noteId, title}` records. -/
def loadSharedNotes (s : ContractState) (sender : Address) :
    List (Address × Nat × String) :=
  let res := getReceivedNotes s sender
  ((res.1.zip (res.2.1.zip res.2.2)).filter (fun e => e.2.2 ≠ ""))

/-! ### Concrete fixture states (used to instantiate the theorems) -/

def okOr (r : Except String ContractState) (d : ContractState) : ContractState :=
  match r with
  | .ok s => s
  | .error _ => d

/-- Freshly deployed contract: every mapping at its default. -/
def emptyState : ContractState :=
  { userNotes := fun _ => []
    noteCount := fun _ => 0
    sharedNoteKeys := fun _ _ _ => ChunkHandles.zero
    sharedWithList := fun _ _ => []
    receivedNotes := fun _ => [] }

/-- Address 1 creates note 0. -/
def state1 : ContractState := (createNote emptyState 1 "note" [7] 11 12 13 14 100).2

/-- Address 1 shares note 0 with address 2 (handles 21-24). -/
def state2 : ContractState := okOr (shareNote state1 1 0 2 21 22 23 24) emptyState

/-- Address 1 revokes address 2's share of note 0. -/
def state3 : ContractState := okOr (unshareNote state2 1 0 2) emptyState

/-- Address 1 re-shares note 0 with address 2 (handles 31-34). -/
def state4 : ContractState := okOr (shareNote state3 1 0 2 31 32 33 34) emptyState

/-- Address 1 soft-deletes note 0 while the share to address 2 is active. -/
def state2d : ContractState := okOr (deleteNote state2 1 0) emptyState

/-- Address 1 soft-deletes note 0 right after creating it (no share). -/
def state1d : ContractState := okOr (deleteNote state1 1 0) emptyState

/-! ### Claim theorems -/

/-- Claim C1: the key chunk codec is a bijection between 32-byte keys and
4-tuples of 64-bit unsigned integers: joining the 4 chunks obtained by
big-endian splitting (`keyChunkToBigInt` at offsets 0, 8, 16, 24) back via
`bigIntToKeyChunk` reproduces the key exactly, and splitting the joined
32-byte string reproduces any 4-tuple of values below `2^64`. -/
theorem C1_key_codec_bijection :
    (∀ k : List Nat, k.length = 32 → (∀ b ∈ k, b < 256) →
        joinKey (splitKey k).1 (splitKey k).2.1 (splitKey k).2.2.1 (splitKey k).2.2.2 = k) ∧
    (∀ c1 c2 c3 c4 : Nat, c1 < 2 ^ 64 → c2 < 2 ^ 64 → c3 < 2 ^ 64 → c4 < 2 ^ 64 →
        splitKey (joinKey c1 c2 c3 c4) = (c1, c2, c3, c4)) := by
  constructor
  · intro k hlen hb
    simpa [splitKey] using join_split k hlen hb
  · exact split_join

/-- Witness for C1 at the concrete key `List.range 32` and the concrete
chunk tuple `(1, 2, 3, 4)`. -/
theorem C1_key_codec_bijection_witness :
    joinKey (splitKey (List.range 32)).1 (splitKey (List.range 32)).2.1
      (splitKey (List.range 32)).2.2.1 (splitKey (List.range 32)).2.2.2 = List.range 32 ∧
    splitKey (joinKey 1 2 3 4) = (1, 2, 3, 4) :=
  ⟨C1_key_codec_bijection.1 (List.range 32) (by decide) (by decide),
   C1_key_codec_bijection.2 1 2 3 4 (by norm_num) (by norm_num) (by norm_num) (by norm_num)⟩

/-- Claim C2: in the decrypt pipeline, if all four oracle-returned chunk
values are null/zero-equivalent (JavaScript-falsy) the reconstruction fails
with the oracle-decryption failure (the thrown error is caught, so no
plaintext or key is cached and the note stays locked); otherwise missing
chunks are silently defaulted to 0 and key reconstruction proceeds. -/
theorem C2_decrypt_null_guard (d1 d2 d3 d4 : Option Nat) :
    ((jsFalsy d1 && jsFalsy d2 && jsFalsy d3 && jsFalsy d4) = true →
        reconstructKeyBytes d1 d2 d3 d4 =
          .error "Gateway returned null values - decryption did not work") ∧
    ((jsFalsy d1 && jsFalsy d2 && jsFalsy d3 && jsFalsy d4) = false →
        reconstructKeyBytes d1 d2 d3 d4 =
          .ok (joinKey (d1.getD 0) (d2.getD 0) (d3.getD 0) (d4.getD 0))) := by
  constructor <;> intro h <;> simp [reconstructKeyBytes, h]

/-- Witness for C2: the all-null response errors; a response with one
present chunk and three nulls proceeds, treating the nulls as 0. -/
theorem C2_decrypt_null_guard_witness :
    reconstructKeyBytes none none none none =
      .error "Gateway returned null values - decryption did not work" ∧
    reconstructKeyBytes (some 5) none none none = .ok (joinKey 5 0 0 0) :=
  ⟨(C2_decrypt_null_guard none none none none).1 (by decide),
   (C2_decrypt_null_guard (some 5) none none none).2 (by decide)⟩

/-- Claim C9: at the shared-note read boundary a missing resource is
indistinguishable from a missing or revoked grant: whenever the stored
handle set for `(owner, noteId, sender)` is inactive — whether the note
does not exist, was never shared, or the share was revoked — all three
read functions fail with the same "No access" error. -/
theorem C9_uniform_access_denied (s : ContractState) (sender owner : Address)
    (noteId : Nat) (h : (s.sharedNoteKeys owner noteId sender).h0 = 0) :
    getSharedNoteKeyChunks s sender owner noteId = .error "No access" ∧
    getSharedNoteCID s sender owner noteId = .error "No access" ∧
    getSharedNoteMetadata s sender owner noteId = .error "No access" := by
  refine ⟨?_, ?_, ?_⟩ <;>
    simp [getSharedNoteKeyChunks, getSharedNoteCID, getSharedNoteMetadata, h]

/-- Witness for C9: address 2 reads note 0 of address 1 after the share
was revoked (`state3`), hitting all three "No access" errors. -/
theorem C9_uniform_access_denied_witness :
    getSharedNoteKeyChunks state3 2 1 0 = .error "No access" ∧
    getSharedNoteCID state3 2 1 0 = .error "No access" ∧
    getSharedNoteMetadata state3 2 1 0 = .error "No access" :=
  C9_uniform_access_denied state3 2 1 0 rfl

/-- Claim C3: a `(resourceId, grantor, grantee)` triple has at most one
active Capability: `shareNote` while an active handle set exists for the
triple is rejected with "Already shared" (an error returns no new state, so
the stored handles are not overwritten), and `shareNote` with the grantee
equal to the owner or to the zero address is also rejected. -/
theorem C3_share_uniqueness (s : ContractState) (sender : Address) (noteId : Nat)
    (recipient : Address) (k1 k2 k3 k4 : Nat)
    (hlen : noteId < (s.userNotes sender).length)
    (hdel : ((s.userNotes sender).getD noteId defaultNote).isDeleted = false) :
    (recipient ≠ sender → recipient ≠ 0 →
      (s.sharedNoteKeys sender noteId recipient).h0 ≠ 0 →
        shareNote s sender noteId recipient k1 k2 k3 k4 = .error "Already shared") ∧
    (recipient = sender →
        shareNote s sender noteId recipient k1 k2 k3 k4 = .error "Cannot share with self") ∧
    (recipient ≠ sender → recipient = 0 →
        shareNote s sender noteId recipient k1 k2 k3 k4 = .error "Invalid recipient") := by
  refine ⟨fun hself hzero hact => ?_, fun hself => ?_, fun hself hzero => ?_⟩
  · simp only [shareNote]
    rw [if_neg (not_not_intro hlen), if_neg (by simpa using hdel), if_neg hself, if_neg hzero,
        if_pos hact]
  · simp only [shareNote]
    rw [if_neg (not_not_intro hlen), if_neg (by simpa using hdel), if_pos hself]
  · simp only [shareNote]
    rw [if_neg (not_not_intro hlen), if_neg (by simpa using hdel), if_neg hself, if_pos hzero]

/-- Witness for C3: in `state2` the share (1, 0, 2) is active, so a second
share to 2 is "Already shared", a share to the owner 1 is "Cannot share
with self", and a share to address 0 is "Invalid recipient". -/
theorem C3_share_uniqueness_witness :
    shareNote state2 1 0 2 31 32 33 34 = .error "Already shared" ∧
    shareNote state2 1 0 1 31 32 33 34 = .error "Cannot share with self" ∧
    shareNote state2 1 0 0 31 32 33 34 = .error "Invalid recipient" :=
  ⟨(C3_share_uniqueness state2 1 0 2 31 32 33 34 (by decide) rfl).1
      (by decide) (by decide) (by decide),
   (C3_share_uniqueness state2 1 0 1 31 32 33 34 (by decide) rfl).2.1 rfl,
   (C3_share_uniqueness state2 1 0 0 31 32 33 34 (by decide) rfl).2.2
      (by decide) rfl⟩

/-- Claim C4: revoke is terminal and not idempotent: after a successful
`unshareNote (noteId, recipient)`, the recipient's read of the chunk
handles fails with the access error ("No access", the code's
CapabilityNotFound), and a second `unshareNote` fails with "Not shared"
instead of silently succeeding. -/
theorem C4_revoke_terminal (s s' : ContractState) (sender : Address)
    (noteId : Nat) (recipient : Address)
    (h : unshareNote s sender noteId recipient = .ok s') :
    getSharedNoteKeyChunks s' recipient sender noteId = .error "No access" ∧
    unshareNote s' sender noteId recipient = .error "Not shared" := by
  unfold unshareNote at h
  split at h
  · exact Except.noConfusion h
  split at h
  · exact Except.noConfusion h
  rename_i hlen hact
  injection h with h
  subst h
  rw [not_not] at hlen
  constructor
  · simp [getSharedNoteKeyChunks, ChunkHandles.zero]
  · simp [unshareNote, ChunkHandles.zero, hlen]

/-- Witness for C4: after the revoke producing `state3`, address 2's chunk
read is denied and a second revoke fails. -/
theorem C4_revoke_terminal_witness :
    getSharedNoteKeyChunks state3 2 1 0 = .error "No access" ∧
    unshareNote state3 1 0 2 = .error "Not shared" :=
  C4_revoke_terminal state2 state3 1 0 2 rfl

/-- Claim C5: soft delete does not revoke access: a successful
`deleteNote` only sets the note's deleted flag and adjusts the active
count; the note's chunk handles, payload locator and every grantee's
stored Capability are untouched, and a grantee with an active grant can
still read the chunk handles and the CID afterwards. -/
theorem C5_soft_delete_frame (s s' : ContractState) (sender : Address) (noteId : Nat)
    (g o2 : Address) (n2 : Nat) (g2 : Address)
    (h : deleteNote s sender noteId = .ok s') :
    s'.sharedNoteKeys o2 n2 g2 = s.sharedNoteKeys o2 n2 g2 ∧
    s'.receivedNotes g2 = s.receivedNotes g2 ∧
    s'.sharedWithList o2 n2 = s.sharedWithList o2 n2 ∧
    (s'.userNotes sender).getD noteId defaultNote =
      { (s.userNotes sender).getD noteId defaultNote with isDeleted := true } ∧
    s'.noteCount sender = s.noteCount sender - 1 ∧
    ((s.sharedNoteKeys sender noteId g).h0 ≠ 0 →
      getSharedNoteKeyChunks s' g sender noteId = .ok (s.sharedNoteKeys sender noteId g) ∧
      getSharedNoteCID s' g sender noteId =
        .ok ((s.userNotes sender).getD noteId defaultNote).ipfsCid) := by
  simp only [deleteNote] at h
  split at h
  · rename_i hlen
    split at h
    · exact Except.noConfusion h
    split at h
    · exact Except.noConfusion h
    injection h with h
    subst h
    refine ⟨rfl, rfl, rfl, ?_, ?_, ?_⟩
    · simp [hlen]
    · simp
    · intro hg
      constructor
      · simp [getSharedNoteKeyChunks, hg]
      · simp [getSharedNoteCID, hg, hlen]
  · exact Except.noConfusion h

/-- Witness for C5: deleting note 0 in `state2` (where it is shared with
address 2) flips the flag, decrements the count, and leaves address 2's
access working. -/
theorem C5_soft_delete_frame_witness :
    state2d.sharedNoteKeys 1 0 2 = state2.sharedNoteKeys 1 0 2 ∧
    state2d.receivedNotes 2 = state2.receivedNotes 2 ∧
    state2d.sharedWithList 1 0 = state2.sharedWithList 1 0 ∧
    (state2d.userNotes 1).getD 0 defaultNote =
      { (state2.userNotes 1).getD 0 defaultNote with isDeleted := true } ∧
    state2d.noteCount 1 = state2.noteCount 1 - 1 ∧
    getSharedNoteKeyChunks state2d 2 1 0 = .ok (state2.sharedNoteKeys 1 0 2) ∧
    getSharedNoteCID state2d 2 1 0 =
      .ok ((state2.userNotes 1).getD 0 defaultNote).ipfsCid := by
  have t := C5_soft_delete_frame state2 state2d 1 0 2 1 0 2 rfl
  have hg := t.2.2.2.2.2 (by decide)
  exact ⟨t.1, t.2.1, t.2.2.1, t.2.2.2.1, t.2.2.2.2.1, hg.1, hg.2⟩

/-- Claim C7: resource ids are assigned as the current length of the
owner's append-only note array (hence monotonically increasing per owner,
equal to the note's array index, and never reused): `createNote` returns
the old length and appends the note carrying that id; `deleteNote` keeps
the array length and the stored id (soft delete frees no id); and
`restoreNote` flips the deleted flag back on the very same note without
creating a new id. -/
theorem C7_id_assignment (s : ContractState) (sender : Address) (title : String)
    (cid : List Nat) (k1 k2 k3 k4 now noteId : Nat) (s2 s3 : ContractState) :
    (createNote s sender title cid k1 k2 k3 k4 now).1 = (s.userNotes sender).length ∧
    (createNote s sender title cid k1 k2 k3 k4 now).2.userNotes sender =
      s.userNotes sender ++
        [{ id := (s.userNotes sender).length, createdAt := now, updatedAt := now,
           title := title, ipfsCid := cid, keyChunk1 := k1, keyChunk2 := k2,
           keyChunk3 := k3, keyChunk4 := k4, isDeleted := false }] ∧
    (deleteNote s sender noteId = .ok s2 →
      (s2.userNotes sender).length = (s.userNotes sender).length ∧
      ((s2.userNotes sender).getD noteId defaultNote).id =
        ((s.userNotes sender).getD noteId defaultNote).id) ∧
    (restoreNote s sender noteId = .ok s3 →
      (s3.userNotes sender).length = (s.userNotes sender).length ∧
      (s3.userNotes sender).getD noteId defaultNote =
        { (s.userNotes sender).getD noteId defaultNote with isDeleted := false }) := by
  refine ⟨rfl, by simp [createNote], fun h => ?_, fun h => ?_⟩
  · simp only [deleteNote] at h
    split at h
    · rename_i hlen
      split at h
      · exact Except.noConfusion h
      split at h
      · exact Except.noConfusion h
      injection h with h
      subst h
      exact ⟨by simp, by simp [hlen]⟩
    · exact Except.noConfusion h
  · simp only [restoreNote] at h
    split at h
    · rename_i hlen
      split at h
      · rename_i hdel
        injection h with h
        subst h
        refine ⟨by simp, ?_⟩
        simp [hlen]
      · exact Except.noConfusion h
    · exact Except.noConfusion h

/-- Witness for C7: creating a second note in `state1` gets id 1 = current
length; deleting then restoring note 0 of `state1` keeps length and id. -/
theorem C7_id_assignment_witness :
    (createNote state1 1 "b" [9] 41 42 43 44 200).1 = (state1.userNotes 1).length ∧
    (createNote state1 1 "b" [9] 41 42 43 44 200).2.userNotes 1 =
      state1.userNotes 1 ++
        [{ id := (state1.userNotes 1).length, createdAt := 200, updatedAt := 200,
           title := "b", ipfsCid := [9], keyChunk1 := 41, keyChunk2 := 42,
           keyChunk3 := 43, keyChunk4 := 44, isDeleted := false }] ∧
    ((okOr (deleteNote state1 1 0) emptyState).userNotes 1).length =
      (state1.userNotes 1).length ∧
    (((okOr (deleteNote state1 1 0) emptyState).userNotes 1).getD 0 defaultNote).id =
      ((state1.userNotes 1).getD 0 defaultNote).id ∧
    ((okOr (restoreNote state1d 1 0) emptyState).userNotes 1).length =
      (state1d.userNotes 1).length ∧
    ((okOr (restoreNote state1d 1 0) emptyState).userNotes 1).getD 0 defaultNote =
      { (state1d.userNotes 1).getD 0 defaultNote with isDeleted := false } := by
  have t := C7_id_assignment state1 1 "b" [9] 41 42 43 44 200 0
    (okOr (deleteNote state1 1 0) emptyState) emptyState
  have u := C7_id_assignment state1d 1 "b" [9] 41 42 43 44 200 0
    emptyState (okOr (restoreNote state1d 1 0) emptyState)
  have hd := t.2.2.1 rfl
  have hu := u.2.2.2 rfl
  exact ⟨t.1, t.2.1, hd.1, hd.2, hu.1, hu.2⟩

/-- Claim C8: a title-only update touches no Capability: a successful
`updateTitle` changes exactly the note's title and `updatedAt`, leaving
its id, `createdAt`, CID, all four chunk handles and deleted flag intact,
every other note untouched, and the whole sharing state (stored handle
sets, share lists, reverse index, counters) unchanged. -/
theorem C8_title_only_frame (s s' : ContractState) (sender : Address) (noteId : Nat)
    (newTitle : String) (now : Nat) (a2 : Address) (n2 : Nat) (g2 : Address)
    (h : updateTitle s sender noteId newTitle now = .ok s') :
    (s'.userNotes sender).getD noteId defaultNote =
      { (s.userNotes sender).getD noteId defaultNote with
        title := newTitle
        updatedAt := now } ∧
    (a2 ≠ sender ∨ n2 ≠ noteId →
      (s'.userNotes a2).getD n2 defaultNote = (s.userNotes a2).getD n2 defaultNote) ∧
    s'.sharedNoteKeys a2 n2 g2 = s.sharedNoteKeys a2 n2 g2 ∧
    s'.sharedWithList a2 n2 = s.sharedWithList a2 n2 ∧
    s'.receivedNotes g2 = s.receivedNotes g2 ∧
    s'.noteCount a2 = s.noteCount a2 := by
  simp only [updateTitle] at h
  split at h
  · rename_i hlen
    split at h
    · exact Except.noConfusion h
    injection h with h
    subst h
    refine ⟨by simp [hlen], ?_, rfl, rfl, rfl, rfl⟩
    intro hne
    rcases hne with hne | hne
    · simp [hne]
    · rcases eq_or_ne a2 sender with rfl | ha
      · simp [List.getElem?_set_ne (Ne.symm hne)]
      · simp [ha]
  · exact Except.noConfusion h

/-- Witness for C8: retitling note 0 owned by address 1 in `state2`. -/
theorem C8_title_only_frame_witness :
    ((okOr (updateTitle state2 1 0 "renamed" 300) emptyState).userNotes 1).getD 0 defaultNote =
      { (state2.userNotes 1).getD 0 defaultNote with
        title := "renamed"
        updatedAt := 300 } ∧
    ((okOr (updateTitle state2 1 0 "renamed" 300) emptyState).userNotes 2).getD 0 defaultNote =
      (state2.userNotes 2).getD 0 defaultNote ∧
    (okOr (updateTitle state2 1 0 "renamed" 300) emptyState).sharedNoteKeys 2 0 2 =
      state2.sharedNoteKeys 2 0 2 ∧
    (okOr (updateTitle state2 1 0 "renamed" 300) emptyState).sharedWithList 2 0 =
      state2.sharedWithList 2 0 ∧
    (okOr (updateTitle state2 1 0 "renamed" 300) emptyState).receivedNotes 2 =
      state2.receivedNotes 2 ∧
    (okOr (updateTitle state2 1 0 "renamed" 300) emptyState).noteCount 2 =
      state2.noteCount 2 := by
  have t := C8_title_only_frame state2 (okOr (updateTitle state2 1 0 "renamed" 300) emptyState)
    1 0 "renamed" 300 2 0 2 rfl
  exact ⟨t.1, t.2.1 (Or.inl (by decide)), t.2.2.1, t.2.2.2.1, t.2.2.2.2.1, t.2.2.2.2.2⟩

/-- Claim C6: after a revoke the reverse index still contains the
`(owner, resourceId)` entry — `unshareNote` removes nothing from
`receivedNotes` — and the read path filters by the grant table's current
state: `getReceivedNotes` leaves the title empty for entries whose grant
is no longer active, and the client's `loadSharedNotes` therefore excludes
the revoked pair from the "shared with me" view. -/
theorem C6_reverse_index_filter (s s' : ContractState) (owner : Address) (noteId : Nat)
    (g : Address) (i : Nat) (e : Address × Nat × String)
    (h : unshareNote s owner noteId g = .ok s') :
    s'.receivedNotes g = s.receivedNotes g ∧
    (i < (s.receivedNotes g).length →
      (s.receivedNotes g).getD i ⟨0, 0⟩ = ⟨owner, noteId⟩ →
      ((getReceivedNotes s' g).2.2).getD i "" = "") ∧
    (e ∈ loadSharedNotes s' g → ¬ (e.1 = owner ∧ e.2.1 = noteId)) := by
  simp only [unshareNote] at h
  split at h
  · exact Except.noConfusion h
  split at h
  · exact Except.noConfusion h
  injection h with h
  subst h
  refine ⟨rfl, ?_, ?_⟩
  · intro hi hv
    simp only [List.getD_eq_getElem?_getD, List.getElem?_eq_getElem hi,
      Option.getD_some] at hv
    simp only [getReceivedNotes, List.getD_eq_getElem?_getD, List.getElem?_map,
      List.getElem?_eq_getElem hi, Option.map_some', Option.getD_some, hv]
    simp [ChunkHandles.zero]
  · intro he hc
    obtain ⟨h1, h2⟩ := hc
    simp only [loadSharedNotes, getReceivedNotes] at he
    rw [List.mem_filter] at he
    obtain ⟨hmem, hP⟩ := he
    rw [List.zip_map', List.zip_map'] at hmem
    rw [List.mem_map] at hmem
    obtain ⟨rf, hrfmem, hrf⟩ := hmem
    subst hrf
    simp only at h1 h2
    simp [h1, h2, ChunkHandles.zero] at hP

/-- Witness for C6 at the revoke producing `state3`: index entry 0 of
address 2 is still `(1, 0)` but its title is filtered to empty and the
pair is absent from the client view. -/
theorem C6_reverse_index_filter_witness :
    state3.receivedNotes 2 = state2.receivedNotes 2 ∧
    ((getReceivedNotes state3 2).2.2).getD 0 "" = "" ∧
    (1, 0, "note") ∉ loadSharedNotes state3 2 := by
  have t := C6_reverse_index_filter state2 state3 1 0 2 0 (1, 0, "note") rfl
  exact ⟨t.1, t.2.1 (by decide) rfl, fun hm => t.2.2 hm ⟨rfl, rfl⟩⟩

/-- Counting a pair in the zipped owner/noteId projections of a reference
list is counting the reference itself. -/
lemma count_pair_zip (refs : List SharedNoteRef) (o : Address) (n : Nat) :
    ((refs.map (fun rf => rf.owner)).zip (refs.map (fun rf => rf.noteId))).count (o, n)
      = refs.count ⟨o, n⟩ := by
  rw [List.zip_map']
  induction refs with
  | nil => rfl
  | cons rf t ih =>
      cases rf
      simp [List.count_cons, ih, SharedNoteRef.mk.injEq, Prod.ext_iff]

/-- Claim C10: the sharing list views are append-only and accumulate
duplicates: `shareNote` unconditionally appends to `sharedWithList` and
`receivedNotes` and `unshareNote` removes neither, so after a revoke
followed by a successful second share of the same note to the same
grantee, `getSharedWithList` lists the grantee twice and the grantee's
`getReceivedNotes` carries two `(owner, noteId)` entries, while exactly
one active handle set (the new one) is stored for the triple. -/
theorem C10_reshare_duplicates (s s1 s2 : ContractState) (owner : Address) (noteId : Nat)
    (g : Address) (k1 k2 k3 k4 : Nat)
    (hw : (s.sharedWithList owner noteId).count g = 1)
    (hr : (s.receivedNotes g).count ⟨owner, noteId⟩ = 1)
    (hun : unshareNote s owner noteId g = .ok s1)
    (hsh : shareNote s1 owner noteId g k1 k2 k3 k4 = .ok s2) :
    getSharedWithList s2 owner noteId = .ok (s.sharedWithList owner noteId ++ [g]) ∧
    (s2.sharedWithList owner noteId).count g = 2 ∧
    ((getReceivedNotes s2 g).1.zip (getReceivedNotes s2 g).2.1).count (owner, noteId) = 2 ∧
    s2.sharedNoteKeys owner noteId g = ⟨k1, k2, k3, k4⟩ := by
  simp only [unshareNote] at hun
  split at hun
  · exact Except.noConfusion hun
  split at hun
  · exact Except.noConfusion hun
  injection hun with hun
  subst hun
  unfold shareNote at hsh
  split at hsh
  · exact Except.noConfusion hsh
  split at hsh
  · exact Except.noConfusion hsh
  split at hsh
  · exact Except.noConfusion hsh
  split at hsh
  · exact Except.noConfusion hsh
  rw [if_neg (by simp [ChunkHandles.zero])] at hsh
  rename_i hlen hdel hself hzero
  rw [not_not] at hlen
  injection hsh with hsh
  subst hsh
  refine ⟨?_, ?_, ?_, ?_⟩
  · simp [getSharedWithList, hlen]
  · simp [hw]
  · simp only [getReceivedNotes]
    rw [count_pair_zip]
    simp [hr]
  · simp

/-- Witness for C10 on the revoke/re-share pair `state3`, `state4`. -/
theorem C10_reshare_duplicates_witness :
    getSharedWithList state4 1 0 = .ok (state2.sharedWithList 1 0 ++ [2]) ∧
    (state4.sharedWithList 1 0).count 2 = 2 ∧
    ((getReceivedNotes state4 2).1.zip (getReceivedNotes state4 2).2.1).count (1, 0) = 2 ∧
    state4.sharedNoteKeys 1 0 2 = ⟨31, 32, 33, 34⟩ :=
  C10_reshare_duplicates state2 state3 state4 1 0 2 31 32 33 34 rfl rfl rfl rfl

end CipherNotes
